import Mathlib

/-!
Shallow embedding of `svg2pdf.go` (package `svg2pdf`) and verification of the
specification's claims about it.  Go strings are modelled as Lean `String`s,
with `goLen` giving Go's `len` (the UTF-8 byte count); Go `float64` values are
modelled as rationals, with `fmtF2` modelling `fmt.Sprintf("%.2f", _)`; the
file-system effects of `ConvertSVGToPDF` and `Save` are modelled by passing the
outcome of the open/decode step in explicitly and by returning the list of
writes performed.
-/

set_option maxRecDepth 100000

attribute [local semireducible] Rat.mul Rat.add Rat.sub Rat.inv

namespace Svg2pdf

/-- UTF-8 byte width of one character (Go strings are UTF-8 byte sequences). -/
def charBytes (c : Char) : Nat :=
  if c.toNat ≤ 0x7F then 1
  else if c.toNat ≤ 0x7FF then 2
  else if c.toNat ≤ 0xFFFF then 3
  else 4

/-- Go's `len` on a string: its UTF-8 byte count. -/
def goLen (s : String) : Nat :=
  (s.data.map charBytes).sum

/-- Go's `strings.Join(lines, "\n")`. -/
def joinNL : List String → String
  | [] => ""
  | [s] => s
  | s :: rest => s ++ "\n" ++ joinNL rest

/-- Concatenation of the lists produced by `f` over a list, in order. -/
def listFlat (f : α → List β) : List α → List β
  | [] => []
  | a :: as => f a ++ listFlat f as

/-- Go's `fmt.Sprintf("%010d", n)` for a natural number. -/
def pad10 (n : Nat) : String :=
  let s := toString n
  String.mk (List.replicate (10 - s.length) '0') ++ s

/-- Floor of a rational, written with `Int.fdiv` so that it evaluates by
kernel reduction. -/
def ratFloor (q : ℚ) : ℤ :=
  Int.fdiv q.num q.den

/-- Go's `fmt.Sprintf("%.2f", q)` on the rational model of a float64.
Rounding at exact half-cent ties differs from Go (which rounds the binary
float's decimal expansion to nearest-even); no claim is settled at a tie. -/
def fmtF2 (q : ℚ) : String :=
  let n : ℤ := ratFloor (q * 100 + 1 / 2)
  let m : ℕ := n.natAbs
  (if n < 0 then "-" else "") ++ toString (m / 100) ++ "." ++
    (if m % 100 < 10 then "0" else "") ++ toString (m % 100)

/-- Value of a digit string, most significant digit first. -/
def digitsToNat (ds : List Char) : Nat :=
  ds.foldl (fun n c => n * 10 + (c.toNat - 48)) 0

/-- Go's `strconv.ParseFloat` restricted to plain decimal forms (optional sign,
digits, optional fraction); exponent/hex/inf spellings are not needed by any
claim.  `none` is a syntax error. -/
def parseFloat (s : String) : Option ℚ :=
  let cs := s.data
  let signed : Bool × List Char :=
    match cs with
    | '-' :: rest => (true, rest)
    | '+' :: rest => (false, rest)
    | _ => (false, cs)
  let ip := signed.2.takeWhile Char.isDigit
  let rest := signed.2.dropWhile Char.isDigit
  let mag : Option ℚ :=
    match rest with
    | [] => if ip.isEmpty then none else some (digitsToNat ip : ℚ)
    | '.' :: fp =>
      if fp.all Char.isDigit && !(ip.isEmpty && fp.isEmpty) then
        some ((digitsToNat ip : ℚ) + (digitsToNat fp : ℚ) / ((10 : ℚ) ^ fp.length))
      else none
    | _ => none
  match mag with
  | none => none
  | some m => some (if signed.1 then -m else m)

/-- The value component of `svgWidth, _ = strconv.ParseFloat(s, 64)` with the
error ignored: on a syntax error Go's ParseFloat returns 0. -/
def goParseFloat (s : String) : ℚ :=
  (parseFloat s).getD 0

/-- SVG rectangle record (struct `Rect`). -/
structure Rect where
  X : ℚ
  Y : ℚ
  Width : ℚ
  Height : ℚ
  Stroke : String
deriving DecidableEq

/-- SVG text record (struct `Text`). -/
structure Text where
  X : ℚ
  Y : ℚ
  Content : String
  Font : String
  Size : ℚ
deriving DecidableEq

/-- SVG path record (struct `Path`); the data string is opaque. -/
structure Path where
  D : String
deriving DecidableEq

/-- Gradient stop record (struct `Stop`). -/
structure Stop where
  Offset : String
  Color : String
deriving DecidableEq

/-- Linear gradient record (struct `Gradient`). -/
structure Gradient where
  ID : String
  X1 : ℚ
  Y1 : ℚ
  X2 : ℚ
  Y2 : ℚ
  Stops : List Stop
deriving DecidableEq

/-- Decoded SVG document (struct `SVG`). -/
structure SVG where
  Width : String
  Height : String
  Rects : List Rect
  Texts : List Text
  Paths : List Path
  Gradients : List Gradient
deriving DecidableEq

/-- PDF document state (struct `PDF`). -/
structure PDF where
  pages : List String
  pageCount : Nat
  content : List String
  pageWidth : ℚ
  pageHeight : ℚ
  scaleX : ℚ
  scaleY : ℚ
  currentX : ℚ
  currentY : ℚ
  columnWidth : ℚ
  rowHeight : ℚ
  maxColumns : Int
  maxRows : Int
  font : String
  fontSize : ℚ
deriving DecidableEq

/-- Constructor `NewPDF`; the fields the Go literal omits (scaleX, scaleY) get
Go's zero value. -/
def NewPDF (columns rows : Int) (font : String) (fontSize : ℚ) : PDF :=
  { pages := []
    pageCount := 0
    content := []
    pageWidth := 595
    pageHeight := 842
    scaleX := 0
    scaleY := 0
    currentX := 0
    currentY := 0
    columnWidth := 150
    rowHeight := 50
    maxColumns := columns
    maxRows := rows
    font := font
    fontSize := fontSize }

/-- Method `AddRow`. -/
def AddRow (p : PDF) : PDF :=
  { p with currentY := p.currentY + p.rowHeight, currentX := 0 }

/-- Method `AddColumn`. -/
def AddColumn (p : PDF) : PDF :=
  let p1 := { p with currentX := p.currentX + p.columnWidth }
  if p1.currentX + p1.columnWidth > p1.pageWidth then AddRow p1 else p1

/-- Function `ApplyTransformation`; the Go source hardcodes 595 for the page
width in the rotate branch. -/
def ApplyTransformation (x y : ℚ) (transform : String) : ℚ × ℚ :=
  if transform = "rotate" then (y, 595 - x) else (x, y)

/-- The three content lines `RenderGradient` appends. -/
def gradContentLines (x y w h : ℚ) : List String :=
  [fmtF2 x ++ " " ++ fmtF2 y ++ " " ++ fmtF2 w ++ " " ++ fmtF2 h ++ " re",
   "0 0 1 RG",
   "S"]

/-- Method `RenderGradient`.  The Go body reads `gradient.Stops[0]` with no
guard: on an empty stop list that index is out of range (run-time panic),
modelled as `none`. -/
def RenderGradient (p : PDF) (gradient : Gradient) (x y w h : ℚ) : Option PDF :=
  match gradient.Stops with
  | [] => none
  | s0 :: _ =>
    let _gradientColor := s0.Color
    some { p with content := p.content ++ gradContentLines x y w h }

/-- Function `escapeText`'s building block: `strings.ReplaceAll` with a
single-character pattern, which expands each occurrence independently. -/
def replaceAllChar (c : Char) (r : List Char) : List Char → List Char
  | [] => []
  | a :: as => (if a = c then r else [a]) ++ replaceAllChar c r as

/-- Function `escapeText`: replace backslash, then `(`, then `)`. -/
def escapeText (text : String) : String :=
  String.mk
    (replaceAllChar ')' ['\\', ')']
      (replaceAllChar '(' ['\\', '(']
        (replaceAllChar '\\' ['\\', '\\'] text.data)))

/-- Method `AddTextWithUnicode`. -/
def AddTextWithUnicode (p : PDF) (x y : ℚ) (text : String) : PDF :=
  { p with content := p.content ++
      [joinNL
        ["BT",
         "/F1 " ++ fmtF2 p.fontSize ++ " Tf",
         fmtF2 x ++ " " ++ fmtF2 y ++ " Td",
         "(" ++ escapeText text ++ ") Tj",
         "ET"]] }

/-- Method `AddPage`: the page label uses the already-incremented count. -/
def AddPage (p : PDF) : PDF :=
  { p with pageCount := p.pageCount + 1,
           pages := p.pages ++ ["Page " ++ toString (p.pageCount + 1)],
           content := p.content ++ [""] }

/-- Outcome of the open+decode step of `ConvertSVGToPDF`: the file effects of
`os.Open` / `xml.Decode` are passed in as data. -/
inductive SVGSource where
  | openError (cause : String)
  | decodeError (cause : String)
  | ok (svg : SVG)
deriving DecidableEq

/-- Result of a Go call: normal return, a returned `error`, or a run-time
panic (index out of range). -/
inductive ConvOutcome where
  | ok
  | err (msg : String)
  | panicked
deriving DecidableEq

/-- Dimension selection of `ConvertSVGToPDF`: defaults 400×150, overwritten by
`strconv.ParseFloat` (errors ignored) when both attributes are non-empty. -/
def svgDims (svgData : SVG) : ℚ × ℚ :=
  if svgData.Width ≠ "" ∧ svgData.Height ≠ "" then
    (goParseFloat svgData.Width, goParseFloat svgData.Height)
  else (400, 150)

/-- The gradient loop of `ConvertSVGToPDF`: each gradient is rendered at the
fixed sample rectangle (100, 100, 200, 50); a panic aborts the loop with the
state mutated so far. -/
def renderGradients : PDF → List Gradient → PDF × Bool
  | p, [] => (p, false)
  | p, g :: gs =>
    match RenderGradient p g 100 100 200 50 with
    | none => (p, true)
    | some p1 => renderGradients p1 gs

/-- The rectangle loop of `ConvertSVGToPDF`: advances the layout cursor and
collects the stroke operators into the local `stream` slice. -/
def processRects : PDF → List Rect → PDF × List String
  | p, [] => (p, [])
  | p, rect :: rs =>
    let p1 := AddColumn p
    let x := rect.X * p1.scaleX
    let y := p1.pageHeight - rect.Y * p1.scaleY
    let w := rect.Width * p1.scaleX
    let h := rect.Height * p1.scaleY
    let ls :=
      [fmtF2 x ++ " " ++ fmtF2 y ++ " m",
       fmtF2 (x + w) ++ " " ++ fmtF2 y ++ " l",
       fmtF2 (x + w) ++ " " ++ fmtF2 (y - h) ++ " l",
       fmtF2 x ++ " " ++ fmtF2 (y - h) ++ " l",
       "h",
       "0 0 0 RG",
       "S"]
    let r := processRects p1 rs
    (r.1, ls ++ r.2)

/-- The text loop of `ConvertSVGToPDF`: advances the cursor, scales and flips
the anchor, applies the rotate transform, and appends the text object. -/
def processTexts : PDF → List Text → PDF
  | p, [] => p
  | p, t :: ts =>
    let p1 := AddColumn p
    let x := t.X * p1.scaleX
    let y := p1.pageHeight - t.Y * p1.scaleY
    let xy := ApplyTransformation x y "rotate"
    processTexts (AddTextWithUnicode p1 xy.1 xy.2 t.Content) ts

/-- Method `ConvertSVGToPDF`.  Error returns happen before any mutation of the
receiver, so they pair the message with the unchanged state; the Go locals are
inlined. -/
def ConvertSVGToPDF (p : PDF) (src : SVGSource) : PDF × ConvOutcome :=
  match src with
  | SVGSource.openError cause =>
    (p, ConvOutcome.err ("error opening SVG file: " ++ cause))
  | SVGSource.decodeError cause =>
    (p, ConvOutcome.err ("error decoding SVG: " ++ cause))
  | SVGSource.ok svgData =>
    match renderGradients
        (AddPage
          { p with scaleX := p.pageWidth / (svgDims svgData).1,
                   scaleY := p.pageHeight / (svgDims svgData).2 })
        svgData.Gradients with
    | (p3, true) => (p3, ConvOutcome.panicked)
    | (p3, false) =>
      let pr := processRects p3 svgData.Rects
      let p4 := processTexts pr.1 svgData.Texts
      ({ p4 with content := p4.content ++ [joinNL pr.2] }, ConvOutcome.ok)

/-- Header lines of `Save`. -/
def headerLines : List String := ["%PDF-1.4", "%âãÏÓ"]

/-- Catalog object lines of `Save`. -/
def catalogLines : List String :=
  ["1 0 obj", "<<", "/Type /Catalog", "/Pages 2 0 R", ">>", "endobj"]

/-- The Kids loop of `Save`: one reference line per page, numbered `3 + i*2`
as in the source. -/
def kidsLines (pageCount : Nat) : List String :=
  (List.range pageCount).map (fun i => toString (3 + i * 2) ++ " 0 R")

/-- Pages root object lines of `Save`. -/
def pagesLines (pageCount : Nat) : List String :=
  ["2 0 obj", "<<", "/Type /Pages", "/Count " ++ toString pageCount, "/Kids ["]
    ++ kidsLines pageCount ++ ["]", ">>", "endobj"]

/-- Font object lines of `Save`. -/
def fontLines : List String :=
  ["3 0 obj", "<<", "/Type /Font", "/Subtype /Type1", "/BaseFont /Helvetica",
   "/Name /F1", ">>", "endobj"]

/-- Page object lines of `Save` for page `i`. -/
def pageObjLines (p : PDF) (i : Nat) : List String :=
  [toString (4 + i * 2) ++ " 0 obj",
   "<<",
   "/Type /Page",
   "/Parent 2 0 R",
   "/MediaBox [0 0 " ++ fmtF2 p.pageWidth ++ " " ++ fmtF2 p.pageHeight ++ "]",
   "/Resources <<",
   "/Font <<",
   "/F1 3 0 R",
   ">>",
   ">>",
   "/Contents " ++ toString (5 + i * 2) ++ " 0 R",
   ">>",
   "endobj"]

/-- Content-stream object lines of `Save` for page `i`: the body is
`p.content[i]` (inserted as a single slice element even when it contains
newlines, exactly as in the source) and Length is its byte count. -/
def contentObjLines (p : PDF) (i : Nat) : List String :=
  let contentStream := p.content.getD i ""
  [toString (5 + i * 2) ++ " 0 obj",
   "<<",
   "/Length " ++ toString (goLen contentStream),
   ">>",
   "stream",
   contentStream,
   "endstream",
   "endobj"]

/-- The full `pdfContent` slice built by `Save` before the xref section. -/
def pdfContentLines (p : PDF) : List String :=
  headerLines ++ catalogLines ++ pagesLines p.pageCount ++ fontLines
    ++ listFlat (fun i => pageObjLines p i ++ contentObjLines p i)
        (List.range p.pageCount)

/-- First three xref lines of `Save`: keyword, subsection header declaring
`5 + pageCount*2 + 1` entries, and the free-list head. -/
def xrefHeaderLines (pageCount : Nat) : List String :=
  ["xref", "0 " ++ toString (5 + pageCount * 2 + 1), "0000000000 65535 f "]

/-- Initial value of `xrefOffset` in `Save`: the byte length of the joined
first two lines, plus 2. -/
def xrefStart (lines : List String) : Nat :=
  goLen (joinNL (lines.take 2)) + 2

/-- The xref offset loop of `Save`: for each index it records the running
offset, then advances it by the byte length of `pdfContent[i]` plus the
newline.  Returns the recorded offsets and the final accumulator. -/
def xrefLoop (lines : List String) : List Nat → Nat → List Nat × Nat
  | [], acc => ([], acc)
  | i :: is, acc =>
    let sec := lines.getD i "" ++ "\n"
    let r := xrefLoop lines is (acc + goLen sec)
    (acc :: r.1, r.2)

/-- Offsets recorded by `Save`'s loop over `i = 1 .. 4 + pageCount*2`, and the
final `xrefOffset` used as the `startxref` value. -/
def xrefData (p : PDF) : List Nat × Nat :=
  xrefLoop (pdfContentLines p) (List.range' 1 (4 + p.pageCount * 2))
    (xrefStart (pdfContentLines p))

/-- Formatted `n`-entries of the xref table. -/
def xrefEntryLines (p : PDF) : List String :=
  (xrefData p).1.map (fun off => pad10 off ++ " 00000 n ")

/-- The complete xref section emitted by `Save`. -/
def xrefLines (p : PDF) : List String :=
  xrefHeaderLines p.pageCount ++ xrefEntryLines p

/-- The `startxref` value `Save` writes: the final loop accumulator. -/
def startxrefValue (p : PDF) : Nat :=
  (xrefData p).2

/-- Trailer lines of `Save`. -/
def trailerLines (p : PDF) : List String :=
  ["trailer", "<<", "/Size " ++ toString (5 + p.pageCount * 2 + 1),
   "/Root 1 0 R", ">>", "startxref", toString (startxrefValue p), "%%EOF"]

/-- The final byte stream `Save` writes to disk. -/
def saveOutput (p : PDF) : String :=
  joinNL (pdfContentLines p) ++ "\n" ++ joinNL (xrefLines p) ++ "\n"
    ++ joinNL (trailerLines p)

/-- Method `Save`: the `os.WriteFile` effect is modelled by an injected
outcome (`none` = success) and the returned list of (path, bytes) writes. -/
def Save (p : PDF) (filePath : String) (writeErr : Option String) :
    List (String × String) × ConvOutcome :=
  match writeErr with
  | some cause => ([], ConvOutcome.err ("error writing PDF: " ++ cause))
  | none => ([(filePath, saveOutput p)], ConvOutcome.ok)

/-- Modelled from the spec: the repository ships no driver (`main`), so the
single-run pipeline — open and decode the source, convert, then save once at
the very end — is taken from the spec's control-flow description; each stage
is the source function modelled above. -/
def convertAndSave (p : PDF) (src : SVGSource) (outPath : String)
    (writeErr : Option String) : List (String × String) × ConvOutcome :=
  match ConvertSVGToPDF p src with
  | (p1, ConvOutcome.ok) => Save p1 outPath writeErr
  | (_, ConvOutcome.err m) => ([], ConvOutcome.err m)
  | (_, ConvOutcome.panicked) => ([], ConvOutcome.panicked)

/-- Byte offset at which line `j` of a newline-joined line list begins in the
joined output: every earlier line contributes its bytes plus one newline. -/
def lineStart (lines : List String) (j : Nat) : Nat :=
  ((lines.take j).map (fun s => goLen s + 1)).sum

/-- The cross-reference entry lines `Save` emits: the free-list head plus one
formatted entry per loop iteration. -/
def xrefTableEntryLines (p : PDF) : List String :=
  "0000000000 65535 f " :: xrefEntryLines p

/-- Per-character escaping table: the three PDF-significant characters gain a
backslash, every other character is untouched.  `escapeText` is proved equal
to the per-character expansion by this table. -/
def escChar (c : Char) : List Char :=
  if c = '\\' then ['\\', '\\']
  else if c = '(' then ['\\', '(']
  else if c = ')' then ['\\', ')']
  else [c]

/-- Number of parentheses that are not escaped (not preceded by an odd run of
backslashes), as a PDF literal-string lexer would count them; the flag records
whether the previous character was an escaping backslash. -/
def unescapedParens : List Char → Bool → Nat
  | [], _ => 0
  | c :: cs, esc =>
    if esc then unescapedParens cs false
    else if c = '\\' then unescapedParens cs true
    else (if c = '(' ∨ c = ')' then 1 else 0) + unescapedParens cs false

/-- Text object block appended for one text element, as a function of the
document parameters it depends on (proved to match the text loop). -/
def textBlock (pageHeight scaleX scaleY fontSize : ℚ) (t : Text) : String :=
  let xy := ApplyTransformation (t.X * scaleX) (pageHeight - t.Y * scaleY) "rotate"
  joinNL
    ["BT",
     "/F1 " ++ fmtF2 fontSize ++ " Tf",
     fmtF2 xy.1 ++ " " ++ fmtF2 xy.2 ++ " Td",
     "(" ++ escapeText t.Content ++ ") Tj",
     "ET"]

/-- Stroke operators emitted for one rectangle, as a function of the document
parameters they depend on (proved to match the rectangle loop). -/
def rectOpLines (pageHeight scaleX scaleY : ℚ) (rect : Rect) : List String :=
  let x := rect.X * scaleX
  let y := pageHeight - rect.Y * scaleY
  let w := rect.Width * scaleX
  let h := rect.Height * scaleY
  [fmtF2 x ++ " " ++ fmtF2 y ++ " m",
   fmtF2 (x + w) ++ " " ++ fmtF2 y ++ " l",
   fmtF2 (x + w) ++ " " ++ fmtF2 (y - h) ++ " l",
   fmtF2 x ++ " " ++ fmtF2 (y - h) ++ " l",
   "h",
   "0 0 0 RG",
   "S"]

/-- A freshly constructed document with the configuration used throughout the
concrete checks. -/
def p0 : PDF := NewPDF 3 3 "Helvetica" 12

/-- A finalized one-page document with an empty content stream. -/
def doc1 : PDF := AddPage p0

/-- A finalized two-page document. -/
def doc2 : PDF := AddPage doc1

/-- SVG fixture with explicit page-sized dimensions, one rectangle and one
text element. -/
def svgRT : SVG :=
  { Width := "595", Height := "842",
    Rects := [{ X := 10, Y := 20, Width := 30, Height := 40, Stroke := "" }],
    Texts := [{ X := 50, Y := 60, Content := "hello", Font := "", Size := 0 }],
    Paths := [], Gradients := [] }

/-- Document produced by converting `svgRT`. -/
def pdfRT : PDF := (ConvertSVGToPDF p0 (SVGSource.ok svgRT)).1

/-- SVG fixture with one rectangle and nothing else. -/
def svgR : SVG :=
  { Width := "595", Height := "842",
    Rects := [{ X := 10, Y := 20, Width := 30, Height := 40, Stroke := "" }],
    Texts := [], Paths := [], Gradients := [] }

/-- Document produced by converting `svgR`. -/
def pdfR : PDF := (ConvertSVGToPDF p0 (SVGSource.ok svgR)).1

/-- SVG fixture whose declared width is not numeric. -/
def svgBadW : SVG :=
  { Width := "abc", Height := "150",
    Rects := [], Texts := [], Paths := [], Gradients := [] }

/-- SVG fixture declaring no dimensions at all. -/
def svgNoDims : SVG :=
  { Width := "", Height := "",
    Rects := [], Texts := [], Paths := [], Gradients := [] }

/-- A gradient with no stops. -/
def gradEmpty : Gradient :=
  { ID := "g", X1 := 0, Y1 := 0, X2 := 1, Y2 := 1, Stops := [] }

/-- A gradient with one stop. -/
def gradOne : Gradient :=
  { ID := "g", X1 := 0, Y1 := 0, X2 := 1, Y2 := 1,
    Stops := [{ Offset := "0", Color := "red" }] }

/-- SVG fixture containing a single gradient that has no stops. -/
def svgG : SVG :=
  { Width := "", Height := "",
    Rects := [], Texts := [], Paths := [], Gradients := [gradEmpty] }

/-! Supporting lemmas. -/

/-- Byte length distributes over string concatenation. -/
theorem goLen_append (a b : String) : goLen (a ++ b) = goLen a + goLen b := by
  simp [goLen, String.data_append]

/-- Joining a nonempty line list yields the summed line bytes plus one
newline byte per line, minus the missing trailing newline. -/
theorem goLen_joinNL (lines : List String) (h : lines ≠ []) :
    goLen (joinNL lines) + 1 = ((lines.map (fun s => goLen s + 1)).sum) := by
  induction lines with
  | nil => exact absurd rfl h
  | cons s rest ih =>
    cases rest with
    | nil => simp [joinNL]
    | cons t ts =>
      have ih' := ih (by simp)
      have hstep : joinNL (s :: t :: ts) = s ++ "\n" ++ joinNL (t :: ts) := rfl
      rw [hstep, goLen_append, goLen_append, List.map_cons, List.sum_cons]
      have hnl : goLen "\n" = 1 := by decide
      omega

/-- The byte offset of line `j` (for `0 < j`) equals the bytes of the joined
first `j` lines plus the separating newline: `lineStart` is the true byte
position of line `j` in the newline-joined output. -/
theorem lineStart_eq (lines : List String) (j : Nat) (h0 : 0 < j)
    (hj : j ≤ lines.length) :
    lineStart lines j = goLen (joinNL (lines.take j)) + 1 := by
  have hne : lines.take j ≠ [] := by
    intro hemp
    have h1 := congrArg List.length hemp
    rw [List.length_take] at h1
    simp only [List.length_nil] at h1
    omega
  rw [lineStart, ← goLen_joinNL (lines.take j) hne]

/-- Joining an appended pair of nonempty line lists inserts one newline
between the two joined halves. -/
theorem joinNL_split (l1 l2 : List String) (h1 : l1 ≠ []) (h2 : l2 ≠ []) :
    joinNL (l1 ++ l2) = joinNL l1 ++ "\n" ++ joinNL l2 := by
  induction l1 with
  | nil => exact absurd rfl h1
  | cons s rest ih =>
    cases rest with
    | nil => cases l2 with
      | nil => exact absurd rfl h2
      | cons t ts => simp [joinNL]
    | cons u us =>
      have hne : (u :: us : List String) ≠ [] := by simp
      have hstep : joinNL ((s :: u :: us) ++ l2)
          = s ++ "\n" ++ joinNL ((u :: us) ++ l2) := rfl
      have hstep2 : joinNL (s :: u :: us) = s ++ "\n" ++ joinNL (u :: us) := rfl
      rw [hstep, ih hne, hstep2]
      simp [String.append_assoc]

/-! Claim theorems. -/

/-- C1: the serializer does number Page objects `4 + i*2` and Content-Stream
objects `5 + i*2` (4, 6 and 5, 7 for two pages), but the Pages root's Kids
array is emitted by `fmt.Sprintf("%d 0 R", 3+i*2)` and therefore reads
`[3 0 R, 5 0 R]` — references to the Font object and the first content
stream — not `[4 0 R, 6 0 R]` as the claim states. -/
theorem kids_numbering_bug :
    (pageObjLines doc2 0).getD 0 "" = "4 0 obj" ∧
    (pageObjLines doc2 1).getD 0 "" = "6 0 obj" ∧
    (contentObjLines doc2 0).getD 0 "" = "5 0 obj" ∧
    (contentObjLines doc2 1).getD 0 "" = "7 0 obj" ∧
    pagesLines 2 =
      ["2 0 obj", "<<", "/Type /Pages", "/Count 2", "/Kids [",
       "3 0 R", "5 0 R", "]", ">>", "endobj"] ∧
    kidsLines 2 ≠ ["4 0 R", "6 0 R"] := by decide

/-- C2: for the one-page document `doc1`, the xref entry for object 1 records
offset 20 while object 1's line `"1 0 obj"` (line 2) actually begins at
byte 19, the entry for object 2 records offset 30 while `"2 0 obj"` (line 8)
actually begins at byte 68 (the loop advances by single source lines, not by
whole objects), and `startxref` records 72 while the `xref` keyword actually
begins at byte 388 of the output. -/
theorem xref_offsets_bug :
    (pdfContentLines doc1).getD 2 "" = "1 0 obj" ∧
    (pdfContentLines doc1).getD 8 "" = "2 0 obj" ∧
    lineStart (pdfContentLines doc1) 2 = 19 ∧
    lineStart (pdfContentLines doc1) 8 = 68 ∧
    (xrefData doc1).1.getD 0 0 = 20 ∧
    (xrefData doc1).1.getD 1 0 = 30 ∧
    (xrefData doc1).1.getD 0 0 ≠ lineStart (pdfContentLines doc1) 2 ∧
    (xrefData doc1).1.getD 1 0 ≠ lineStart (pdfContentLines doc1) 8 ∧
    startxrefValue doc1 = 72 ∧
    goLen (joinNL (pdfContentLines doc1)) + 1 = 388 ∧
    startxrefValue doc1 ≠ goLen (joinNL (pdfContentLines doc1)) + 1 := by
  decide

/-- C3 counterexample: for the one-page document `doc1` the serializer emits
7 cross-reference entry lines (free-list head plus six), not the
`5 + 1*2 + 1 = 8` the claim states, although the trailer does declare
`/Size 8`. -/
theorem xref_count_cex :
    (xrefTableEntryLines doc1).length = 7 ∧
    (trailerLines doc1).getD 2 "" = "/Size 8" ∧
    ¬((xrefTableEntryLines doc1).length = 5 + 1 * 2 + 1) := by decide

/-- C4: converting an SVG with a single rectangle yields a one-page document
whose first content entry (appended by `AddPage`) is empty and whose second
entry holds the rectangle's operators; `Save` serializes `p.content[0]` as
page 0's stream body, so the emitted body is `""` with `/Length 0` and the
rectangle operators appear nowhere in the serialized object lines. -/
theorem content_stream_body_bug :
    (ConvertSVGToPDF p0 (SVGSource.ok svgR)).2 = ConvOutcome.ok ∧
    pdfR.pageCount = 1 ∧
    pdfR.content =
      ["",
       "10.00 822.00 m\n40.00 822.00 l\n40.00 782.00 l\n10.00 782.00 l\nh\n0 0 0 RG\nS"] ∧
    contentObjLines pdfR 0 =
      ["5 0 obj", "<<", "/Length 0", ">>", "stream", "", "endstream", "endobj"] ∧
    pdfR.content.getD 1 "" ∉ pdfContentLines pdfR ∧
    pdfR.content.getD 1 "" ≠ "" := by decide

/-- C5 counterexample: converting an SVG with one rectangle and one text
element appends the text object block (index 1, the `BT ... Tj ... ET`
block) to the content before the rectangle operator block (index 2), because
the rectangle operators are buffered in a local slice and appended only after
the text loop — the claim's "rectangles before text" order is reversed. -/
theorem content_order_cex :
    pdfRT.content =
      ["",
       "BT\n/F1 12.00 Tf\n782.00 545.00 Td\n(hello) Tj\nET",
       "10.00 822.00 m\n40.00 822.00 l\n40.00 782.00 l\n10.00 782.00 l\nh\n0 0 0 RG\nS"] ∧
    pdfRT.content.getD 1 "" ≠ pdfRT.content.getD 2 "" := by decide

/-- C6: `ApplyTransformation` with name "rotate" maps `(x, y)` to
`(y, 595 - x)` where 595 is exactly the page width `NewPDF` installs; the
two corner points map as documented; any other name is the identity; and the
function is a pure function of its arguments (it is a Lean function of `x`,
`y` and the name, with no other state). -/
theorem applyTransformation_spec :
    (∀ x y : ℚ, ApplyTransformation x y "rotate" = (y, 595 - x)) ∧
    ApplyTransformation 0 0 "rotate" = (0, 595) ∧
    ApplyTransformation 595 0 "rotate" = (0, 0) ∧
    (∀ (x y : ℚ) (t : String), t ≠ "rotate" → ApplyTransformation x y t = (x, y)) ∧
    (∀ (c r : Int) (f : String) (fs : ℚ), (NewPDF c r f fs).pageWidth = 595) := by
  refine ⟨fun x y => ?_, by decide, by decide, fun x y t ht => ?_,
    fun c r f fs => rfl⟩
  · simp [ApplyTransformation]
  · simp [ApplyTransformation, ht]

/-- C6 witness: the rotate formula and the identity branch at concrete
inputs. -/
theorem applyTransformation_spec_witness :
    ApplyTransformation 7 9 "scale" = (7, 9) ∧
    ApplyTransformation 1 2 "rotate" = (2, 595 - 1) :=
  ⟨applyTransformation_spec.2.2.2.1 7 9 "scale" (by decide),
   applyTransformation_spec.1 1 2⟩

/-- C9: a failed open or a failed decode makes `ConvertSVGToPDF` return an
error naming the operation and the underlying cause, before any mutation of
the document (the returned state is exactly the input state); no file write
happens on those paths, and `Save` performs exactly one write, of the full
serialized output, at the end (or none and a descriptive error when the
write fails). -/
theorem convert_error_spec (p : PDF) (cause : String) (path : String) :
    ConvertSVGToPDF p (SVGSource.openError cause) =
      (p, ConvOutcome.err ("error opening SVG file: " ++ cause)) ∧
    ConvertSVGToPDF p (SVGSource.decodeError cause) =
      (p, ConvOutcome.err ("error decoding SVG: " ++ cause)) ∧
    (convertAndSave p (SVGSource.openError cause) path none).1 = [] ∧
    (convertAndSave p (SVGSource.decodeError cause) path none).1 = [] ∧
    Save p path none = ([(path, saveOutput p)], ConvOutcome.ok) ∧
    (∀ wcause, Save p path (some wcause) =
      ([], ConvOutcome.err ("error writing PDF: " ++ wcause))) :=
  ⟨rfl, rfl, rfl, rfl, rfl, fun _ => rfl⟩

/-- C10: `RenderGradient` reads `Stops[0]` with no guard, so it is the panic
(`none`) exactly when the stop list is empty and succeeds whenever at least
one stop exists; the panic is reachable through `ConvertSVGToPDF` on an SVG
whose only gradient has no stops. -/
theorem renderGradient_spec :
    (∀ (p : PDF) (g : Gradient) (x y w h : ℚ),
      g.Stops = [] → RenderGradient p g x y w h = none) ∧
    (∀ (p : PDF) (g : Gradient) (x y w h : ℚ),
      g.Stops ≠ [] → (RenderGradient p g x y w h).isSome = true) ∧
    (ConvertSVGToPDF p0 (SVGSource.ok svgG)).2 = ConvOutcome.panicked := by
  refine ⟨fun p g x y w h hg => ?_, fun p g x y w h hg => ?_, by decide⟩
  · simp [RenderGradient, hg]
  · rcases hs : g.Stops with _ | ⟨s, ss⟩
    · exact absurd hs hg
    · simp [RenderGradient, hs]

/-- C10 witness: the out-of-bounds branch at an empty-stop gradient and the
success branch at a one-stop gradient. -/
theorem renderGradient_spec_witness :
    RenderGradient p0 gradEmpty 1 2 3 4 = none ∧
    (RenderGradient p0 gradOne 1 2 3 4).isSome = true :=
  ⟨renderGradient_spec.1 p0 gradEmpty 1 2 3 4 rfl,
   renderGradient_spec.2.1 p0 gradOne 1 2 3 4 (by decide)⟩

/-! Escaping: `escapeText` as a per-character expansion. -/

/-- Single-character replacement distributes over list append. -/
theorem replaceAllChar_append (c : Char) (r : List Char) (l1 l2 : List Char) :
    replaceAllChar c r (l1 ++ l2)
      = replaceAllChar c r l1 ++ replaceAllChar c r l2 := by
  induction l1 with
  | nil => rfl
  | cons a as ih => simp [replaceAllChar, ih]

/-- The last two replacement passes turn the block produced for one input
character by the backslash pass into the escaping table's output. -/
theorem escHead (a : Char) :
    replaceAllChar ')' ['\\', ')'] (replaceAllChar '(' ['\\', '(']
      (if a = '\\' then ['\\', '\\'] else [a])) = escChar a := by
  by_cases h1 : a = '\\'
  · subst h1; decide
  · rw [if_neg h1]
    by_cases h2 : a = '('
    · subst h2; decide
    · by_cases h3 : a = ')'
      · subst h3; decide
      · simp [replaceAllChar, escChar, h1, h2, h3]

/-- The three sequential replacement passes of `escapeText` coincide with one
pass of the per-character escaping table. -/
theorem escape_eq_flat (l : List Char) :
    replaceAllChar ')' ['\\', ')'] (replaceAllChar '(' ['\\', '(']
        (replaceAllChar '\\' ['\\', '\\'] l))
      = listFlat escChar l := by
  induction l with
  | nil => rfl
  | cons a as ih =>
    have h : replaceAllChar '\\' ['\\', '\\'] (a :: as)
        = (if a = '\\' then ['\\', '\\'] else [a])
          ++ replaceAllChar '\\' ['\\', '\\'] as := rfl
    rw [h, replaceAllChar_append, replaceAllChar_append, escHead, ih]
    rfl

/-- One escaped block leaves the unescaped-parenthesis count of whatever
follows it unchanged, starting from the unescaped state. -/
theorem unescaped_escChar (a : Char) (rest : List Char) :
    unescapedParens (escChar a ++ rest) false = unescapedParens rest false := by
  by_cases h1 : a = '\\'
  · subst h1; simp [escChar, unescapedParens]
  · by_cases h2 : a = '('
    · subst h2; simp [escChar, unescapedParens]
    · by_cases h3 : a = ')'
      · subst h3; simp [escChar, unescapedParens]
      · simp [escChar, unescapedParens, h1, h2, h3]

/-- The per-character expansion produces no unescaped parentheses. -/
theorem unescaped_flat (l : List Char) :
    unescapedParens (listFlat escChar l) false = 0 := by
  induction l with
  | nil => rfl
  | cons a as ih =>
    have h : listFlat escChar (a :: as) = escChar a ++ listFlat escChar as := rfl
    rw [h, unescaped_escChar, ih]

/-- The escaping table is the identity away from the three special
characters. -/
theorem flat_id (l : List Char)
    (h : ∀ c ∈ l, c ≠ '\\' ∧ c ≠ '(' ∧ c ≠ ')') :
    listFlat escChar l = l := by
  induction l with
  | nil => rfl
  | cons a as ih =>
    obtain ⟨h1, h2, h3⟩ := h a (List.mem_cons_self a as)
    have ih' := ih (fun c hc => h c (List.mem_cons_of_mem a hc))
    have hstep : listFlat escChar (a :: as) = escChar a ++ listFlat escChar as := rfl
    rw [hstep, ih']
    simp [escChar, h1, h2, h3]

/-- C8: `escapeText` is exactly the per-character expansion that doubles a
backslash and escapes each parenthesis once (so each of the three
replacements acts once, in order, on exactly those characters); its output
contains no unescaped parenthesis; and it is the identity on strings that
contain none of the three characters. -/
theorem escapeText_spec :
    (∀ s : String, escapeText s = String.mk (listFlat escChar s.data)) ∧
    (∀ s : String, unescapedParens (escapeText s).data false = 0) ∧
    (∀ s : String, (∀ c ∈ s.data, c ≠ '\\' ∧ c ≠ '(' ∧ c ≠ ')') →
      escapeText s = s) := by
  have key : ∀ s : String, escapeText s = String.mk (listFlat escChar s.data) :=
    fun s => congrArg String.mk (escape_eq_flat s.data)
  refine ⟨key, fun s => ?_, fun s h => ?_⟩
  · rw [key]
    exact unescaped_flat s.data
  · rw [key, flat_id s.data h]

/-- C8 witness: a string with parentheses escapes to a form with no
unescaped parenthesis, and a plain string is unchanged. -/
theorem escapeText_spec_witness :
    unescapedParens (escapeText "Hi(there)").data false = 0 ∧
    escapeText "abc" = "abc" :=
  ⟨escapeText_spec.2.1 "Hi(there)", escapeText_spec.2.2 "abc" (by decide)⟩

/-! Cross-reference entry count. -/

/-- The offset loop records exactly one entry per index. -/
theorem xrefLoop_length (lines : List String) (idxs : List Nat) :
    ∀ acc, (xrefLoop lines idxs acc).1.length = idxs.length := by
  induction idxs with
  | nil => intro acc; rfl
  | cons i is ih => intro acc; simp [xrefLoop, ih]

/-- C3 (amended): the xref section is the keyword, a subsection header
declaring `5 + N*2 + 1` entries, and the entry lines; but the entry lines
actually emitted number `5 + N*2` (free-list head plus one per loop index
`1 .. 4 + N*2`), one fewer than the `/Size` value the trailer declares. -/
theorem xref_count_spec (p : PDF) :
    xrefLines p
      = ["xref", "0 " ++ toString (5 + p.pageCount * 2 + 1)]
        ++ xrefTableEntryLines p ∧
    (xrefTableEntryLines p).length = 5 + p.pageCount * 2 ∧
    (trailerLines p).getD 2 "" = "/Size " ++ toString (5 + p.pageCount * 2 + 1) ∧
    (xrefTableEntryLines p).length ≠ 5 + p.pageCount * 2 + 1 := by
  have hlen : (xrefTableEntryLines p).length = 5 + p.pageCount * 2 := by
    simp [xrefTableEntryLines, xrefEntryLines, xrefData, xrefLoop_length]
    omega
  exact ⟨rfl, hlen, rfl, by omega⟩

/-! Field preservation through the conversion loops. -/

/-- Advancing a column never touches the content list. -/
theorem AddColumn_content (p : PDF) : (AddColumn p).content = p.content := by
  unfold AddColumn AddRow
  dsimp only
  split <;> rfl

/-- Advancing a column never touches the horizontal scale. -/
theorem AddColumn_scaleX (p : PDF) : (AddColumn p).scaleX = p.scaleX := by
  unfold AddColumn AddRow
  dsimp only
  split <;> rfl

/-- Advancing a column never touches the vertical scale. -/
theorem AddColumn_scaleY (p : PDF) : (AddColumn p).scaleY = p.scaleY := by
  unfold AddColumn AddRow
  dsimp only
  split <;> rfl

/-- Advancing a column never touches the page width. -/
theorem AddColumn_pageWidth (p : PDF) : (AddColumn p).pageWidth = p.pageWidth := by
  unfold AddColumn AddRow
  dsimp only
  split <;> rfl

/-- Advancing a column never touches the page height. -/
theorem AddColumn_pageHeight (p : PDF) :
    (AddColumn p).pageHeight = p.pageHeight := by
  unfold AddColumn AddRow
  dsimp only
  split <;> rfl

/-- Advancing a column never touches the font size. -/
theorem AddColumn_fontSize (p : PDF) : (AddColumn p).fontSize = p.fontSize := by
  unfold AddColumn AddRow
  dsimp only
  split <;> rfl

/-- The rectangle loop never touches the content list. -/
theorem processRects_content (rs : List Rect) :
    ∀ p : PDF, (processRects p rs).1.content = p.content := by
  induction rs with
  | nil => intro p; rfl
  | cons r rs ih =>
    intro p
    simp only [processRects]
    rw [ih (AddColumn p), AddColumn_content]

/-- The rectangle loop never touches the horizontal scale. -/
theorem processRects_scaleX (rs : List Rect) :
    ∀ p : PDF, (processRects p rs).1.scaleX = p.scaleX := by
  induction rs with
  | nil => intro p; rfl
  | cons r rs ih =>
    intro p
    simp only [processRects]
    rw [ih (AddColumn p), AddColumn_scaleX]

/-- The rectangle loop never touches the vertical scale. -/
theorem processRects_scaleY (rs : List Rect) :
    ∀ p : PDF, (processRects p rs).1.scaleY = p.scaleY := by
  induction rs with
  | nil => intro p; rfl
  | cons r rs ih =>
    intro p
    simp only [processRects]
    rw [ih (AddColumn p), AddColumn_scaleY]

/-- The rectangle loop never touches the page height. -/
theorem processRects_pageHeight (rs : List Rect) :
    ∀ p : PDF, (processRects p rs).1.pageHeight = p.pageHeight := by
  induction rs with
  | nil => intro p; rfl
  | cons r rs ih =>
    intro p
    simp only [processRects]
    rw [ih (AddColumn p), AddColumn_pageHeight]

/-- The rectangle loop never touches the font size. -/
theorem processRects_fontSize (rs : List Rect) :
    ∀ p : PDF, (processRects p rs).1.fontSize = p.fontSize := by
  induction rs with
  | nil => intro p; rfl
  | cons r rs ih =>
    intro p
    simp only [processRects]
    rw [ih (AddColumn p), AddColumn_fontSize]

/-- The stream the rectangle loop collects is the per-rectangle operator
lines, in input order, computed from the (unchanged) document parameters. -/
theorem processRects_stream (rs : List Rect) :
    ∀ p : PDF, (processRects p rs).2
      = listFlat (rectOpLines p.pageHeight p.scaleX p.scaleY) rs := by
  induction rs with
  | nil => intro p; rfl
  | cons r rs ih =>
    intro p
    simp only [processRects]
    rw [ih (AddColumn p), AddColumn_pageHeight, AddColumn_scaleX,
      AddColumn_scaleY]
    rfl

/-- The text loop appends exactly one text block per element, in input order,
computed from the (unchanged) document parameters. -/
theorem processTexts_content (ts : List Text) :
    ∀ p : PDF, (processTexts p ts).content
      = p.content ++ ts.map (textBlock p.pageHeight p.scaleX p.scaleY p.fontSize) := by
  induction ts with
  | nil => intro p; simp [processTexts]
  | cons t ts ih =>
    intro p
    simp only [processTexts]
    rw [ih]
    simp only [AddTextWithUnicode, AddColumn_content, AddColumn_pageHeight,
      AddColumn_scaleX, AddColumn_scaleY, AddColumn_fontSize, List.map_cons]
    rw [List.append_assoc]
    rfl

/-- The text loop never touches the horizontal scale. -/
theorem processTexts_scaleX (ts : List Text) :
    ∀ p : PDF, (processTexts p ts).scaleX = p.scaleX := by
  induction ts with
  | nil => intro p; rfl
  | cons t ts ih =>
    intro p
    simp only [processTexts]
    rw [ih]
    exact AddColumn_scaleX p

/-- The text loop never touches the vertical scale. -/
theorem processTexts_scaleY (ts : List Text) :
    ∀ p : PDF, (processTexts p ts).scaleY = p.scaleY := by
  induction ts with
  | nil => intro p; rfl
  | cons t ts ih =>
    intro p
    simp only [processTexts]
    rw [ih]
    exact AddColumn_scaleY p

/-- When every gradient has at least one stop, the gradient loop succeeds and
appends three fixed lines per gradient, in input order. -/
theorem renderGradients_ok (gs : List Gradient) :
    ∀ p : PDF, (∀ g ∈ gs, g.Stops ≠ []) →
      renderGradients p gs
        = ({ p with content := p.content
              ++ listFlat (fun _ => gradContentLines 100 100 200 50) gs },
           false) := by
  induction gs with
  | nil =>
    intro p _
    show (p, false) = _
    simp [listFlat]
  | cons g gs ih =>
    intro p h
    have hg := h g (List.mem_cons_self g gs)
    rcases hs : g.Stops with _ | ⟨s0, ss⟩
    · exact absurd hs hg
    · simp only [renderGradients, RenderGradient, hs]
      rw [ih _ (fun g' hg' => h g' (List.mem_cons_of_mem g hg'))]
      simp [listFlat, List.append_assoc]

/-- Whether or not it panics, the gradient loop never touches the horizontal
scale. -/
theorem renderGradients_scaleX (gs : List Gradient) :
    ∀ p : PDF, ((renderGradients p gs).1).scaleX = p.scaleX := by
  induction gs with
  | nil => intro p; rfl
  | cons g gs ih =>
    intro p
    rcases hs : g.Stops with _ | ⟨s0, ss⟩
    · simp [renderGradients, RenderGradient, hs]
    · simp only [renderGradients, RenderGradient, hs]
      rw [ih]

/-- Whether or not it panics, the gradient loop never touches the vertical
scale. -/
theorem renderGradients_scaleY (gs : List Gradient) :
    ∀ p : PDF, ((renderGradients p gs).1).scaleY = p.scaleY := by
  induction gs with
  | nil => intro p; rfl
  | cons g gs ih =>
    intro p
    rcases hs : g.Stops with _ | ⟨s0, ss⟩
    · simp [renderGradients, RenderGradient, hs]
    · simp only [renderGradients, RenderGradient, hs]
      rw [ih]

/-- Scale factors installed by a successful-decode conversion: page dimension
divided by the selected SVG dimension, whatever happens afterwards. -/
theorem convert_scale (p : PDF) (svg : SVG) :
    (ConvertSVGToPDF p (SVGSource.ok svg)).1.scaleX
      = p.pageWidth / (svgDims svg).1 ∧
    (ConvertSVGToPDF p (SVGSource.ok svg)).1.scaleY
      = p.pageHeight / (svgDims svg).2 := by
  simp only [ConvertSVGToPDF]
  rcases hrg : renderGradients
      (AddPage
        { p with scaleX := p.pageWidth / (svgDims svg).1,
                 scaleY := p.pageHeight / (svgDims svg).2 })
      svg.Gradients with ⟨p3, b⟩
  have hx := renderGradients_scaleX svg.Gradients
    (AddPage
      { p with scaleX := p.pageWidth / (svgDims svg).1,
               scaleY := p.pageHeight / (svgDims svg).2 })
  have hy := renderGradients_scaleY svg.Gradients
    (AddPage
      { p with scaleX := p.pageWidth / (svgDims svg).1,
               scaleY := p.pageHeight / (svgDims svg).2 })
  rw [hrg] at hx hy
  cases b with
  | true => exact ⟨hx, hy⟩
  | false =>
    constructor
    · show (processTexts (processRects p3 svg.Rects).1 svg.Texts).scaleX = _
      rw [processTexts_scaleX, processRects_scaleX, hx]
      rfl
    · show (processTexts (processRects p3 svg.Rects).1 svg.Texts).scaleY = _
      rw [processTexts_scaleY, processRects_scaleY, hy]
      rfl

/-- C5 (amended): when every gradient has at least one stop, conversion
succeeds and the content list for the new page is: the gradient operator
triples (input order), then the text object blocks (input order), then one
final element holding all rectangle operators joined (input order) — i.e.
gradients are appended before text, and the rectangle block is appended
after the text blocks, because the rectangle operators are buffered locally
and appended last. -/
theorem convert_content_order (p : PDF) (svg : SVG)
    (hg : ∀ g ∈ svg.Gradients, g.Stops ≠ []) :
    (ConvertSVGToPDF p (SVGSource.ok svg)).2 = ConvOutcome.ok ∧
    (ConvertSVGToPDF p (SVGSource.ok svg)).1.content
      = p.content ++ [""]
        ++ listFlat (fun _ => gradContentLines 100 100 200 50) svg.Gradients
        ++ svg.Texts.map
            (textBlock p.pageHeight (p.pageWidth / (svgDims svg).1)
              (p.pageHeight / (svgDims svg).2) p.fontSize)
        ++ [joinNL
            (listFlat
              (rectOpLines p.pageHeight (p.pageWidth / (svgDims svg).1)
                (p.pageHeight / (svgDims svg).2))
              svg.Rects)] := by
  simp only [ConvertSVGToPDF]
  rw [renderGradients_ok svg.Gradients _ hg]
  dsimp only
  constructor
  · rfl
  · rw [processTexts_content, processRects_content, processRects_pageHeight,
      processRects_scaleX, processRects_scaleY, processRects_fontSize,
      processRects_stream]
    dsimp only
    simp [AddPage, List.append_assoc]

/-- C5 witness: the gradient hypothesis holds for the rectangle-and-text
fixture (it has no gradients) and conversion succeeds on it. -/
theorem convert_content_order_witness :
    (∀ g ∈ svgRT.Gradients, g.Stops ≠ []) ∧
    (ConvertSVGToPDF p0 (SVGSource.ok svgRT)).2 = ConvOutcome.ok :=
  ⟨by decide, (convert_content_order p0 svgRT (by decide)).1⟩

/-- C7 counterexample: with a declared non-numeric width ("abc") and numeric
height, `ParseFloat`'s error value 0 is used as the SVG width (the default
400 is not restored), so the horizontal scale is pageWidth divided by zero —
not `pageWidth / 400` as the claim states. -/
theorem convert_scale_cex :
    svgDims svgBadW = (0, 150) ∧
    (ConvertSVGToPDF p0 (SVGSource.ok svgBadW)).1.scaleX ≠ p0.pageWidth / 400 ∧
    parseFloat "abc" = none := by decide

/-- C7 (amended): if either dimension attribute is absent (empty string),
the scale factors come from the defaults 400×150; if both are declared and
numeric, they come from the parsed values; but if both are declared and the
width is non-numeric, the ignored `ParseFloat` error leaves 0 as the width
(Go then computes an infinite scale), not the default. -/
theorem convert_scale_spec (p : PDF) (svg : SVG) :
    ((svg.Width = "" ∨ svg.Height = "") →
      (ConvertSVGToPDF p (SVGSource.ok svg)).1.scaleX = p.pageWidth / 400 ∧
      (ConvertSVGToPDF p (SVGSource.ok svg)).1.scaleY = p.pageHeight / 150) ∧
    (∀ w h : ℚ, svg.Width ≠ "" → svg.Height ≠ "" →
      parseFloat svg.Width = some w → parseFloat svg.Height = some h →
      (ConvertSVGToPDF p (SVGSource.ok svg)).1.scaleX = p.pageWidth / w ∧
      (ConvertSVGToPDF p (SVGSource.ok svg)).1.scaleY = p.pageHeight / h) ∧
    (svg.Width ≠ "" → svg.Height ≠ "" → parseFloat svg.Width = none →
      (svgDims svg).1 = 0) := by
  refine ⟨fun hor => ?_, fun w h hw hh hpw hph => ?_, fun hw hh hn => ?_⟩
  · have hd : svgDims svg = (400, 150) := by
      unfold svgDims
      rw [if_neg]
      rintro ⟨h1, h2⟩
      rcases hor with hc | hc
      · exact h1 hc
      · exact h2 hc
    constructor
    · rw [(convert_scale p svg).1, hd]
    · rw [(convert_scale p svg).2, hd]
  · have hd : svgDims svg = (w, h) := by
      unfold svgDims
      rw [if_pos ⟨hw, hh⟩]
      unfold goParseFloat
      rw [hpw, hph]
      rfl
    constructor
    · rw [(convert_scale p svg).1, hd]
    · rw [(convert_scale p svg).2, hd]
  · unfold svgDims
    rw [if_pos ⟨hw, hh⟩]
    unfold goParseFloat
    rw [hn]
    rfl

/-- C7 witness: missing dimensions give the 400×150 defaults, numeric
dimensions give the parsed values, a non-numeric width gives 0. -/
theorem convert_scale_spec_witness :
    (ConvertSVGToPDF p0 (SVGSource.ok svgNoDims)).1.scaleX
      = p0.pageWidth / 400 ∧
    (ConvertSVGToPDF p0 (SVGSource.ok svgRT)).1.scaleX
      = p0.pageWidth / 595 ∧
    (svgDims svgBadW).1 = 0 :=
  ⟨((convert_scale_spec p0 svgNoDims).1 (Or.inl rfl)).1,
   ((convert_scale_spec p0 svgRT).2.1 595 842 (by decide) (by decide)
     (by decide) (by decide)).1,
   (convert_scale_spec p0 svgBadW).2.2 (by decide) (by decide) (by decide)⟩

end Svg2pdf
